import Mathlib

/-!
Verification of the PCP claims rules-and-arithmetic core: the Priorities Deed
waterfall of `pcp_funding_agent.calculate_dba_distribution` and the FCA
redress validator of `fca_redress_validator.FCARedressValidator`.

Machine floats of the source are modelled as exact rationals (`ℚ`); decimal
literals such as `0.8` denote the exact decimal. `datetime.now()` is modelled
as an explicit day-number argument `now`.
-/

namespace PCPClaims

/-- The breakdown dict returned by `calculate_dba_distribution`
(`src/pcp_funding_agent.py`): shares for the funder, the firm (after the
claims-processor split) and the claims processor, plus the amount consumed by
each tier and the net proceeds reaching tier 4. Field names follow the
source's dict keys. -/
structure DBADistribution where
  funder_share : ℚ
  firm_share : ℚ
  claims_processor_share : ℚ
  outstanding_costs_sum : ℚ
  first_tier_funder_return : ℚ
  distribution_costs_overrun : ℚ
  net_proceeds : ℚ
  deriving Repr, DecidableEq

/-- `calculate_dba_distribution` (`src/pcp_funding_agent.py`, lines 89–126):
the Priorities Deed waterfall. Tier 1 pays the Outstanding Costs Sum, tier 2
the First Tier Funder Return, tier 3 the Distribution Costs Overrun, and
tier 4 splits the remaining net proceeds 80/20 between funder and firm, the
firm's pot (tier-3 payment included) then being halved with the claims
processor. -/
def calculate_dba_distribution (net_dba_proceeds outstanding_costs_sum
    first_tier_funder_return distribution_costs_overrun : ℚ) : DBADistribution :=
  let step1 := min net_dba_proceeds outstanding_costs_sum
  let remaining := net_dba_proceeds - step1
  let step2 := min remaining first_tier_funder_return
  let remaining := remaining - step2
  let step3 := min remaining distribution_costs_overrun
  let remaining := remaining - step3
  let net_proceeds := max remaining 0
  let funder_share := step1 + step2 + net_proceeds * 0.8
  let firm_share := step3 + net_proceeds * 0.2
  let claims_processor_share := firm_share * 0.5
  let firm_final_share := firm_share - claims_processor_share
  { funder_share := funder_share
    firm_share := firm_final_share
    claims_processor_share := claims_processor_share
    outstanding_costs_sum := step1
    first_tier_funder_return := step2
    distribution_costs_overrun := step3
    net_proceeds := net_proceeds }

/-- The source function performs no input validation and contains no operation
that can raise; modelled over `Except` (to state the error-handling contract)
the call is total and always succeeds. -/
def distribute (net_dba_proceeds outstanding_costs_sum
    first_tier_funder_return distribution_costs_overrun : ℚ) :
    Except String DBADistribution :=
  Except.ok (calculate_dba_distribution net_dba_proceeds outstanding_costs_sum
    first_tier_funder_return distribution_costs_overrun)

/-- The three reported shares of the waterfall always sum to the gross input:
each tier consumes `min remaining tier`, so the running remainder never goes
below `0` (for any inputs, even negative ones), `max remaining 0` is the
remainder itself, and the terminal 80/20 and 50/50 splits are partitions. -/
theorem dba_shares_sum (g ocs ftfr dco : ℚ) :
    (calculate_dba_distribution g ocs ftfr dco).funder_share
      + (calculate_dba_distribution g ocs ftfr dco).firm_share
      + (calculate_dba_distribution g ocs ftfr dco).claims_processor_share = g := by
  simp only [calculate_dba_distribution]
  have h1 : min g ocs ≤ g := min_le_left _ _
  have h2 : min (g - min g ocs) ftfr ≤ g - min g ocs := min_le_left _ _
  have h3 : min (g - min g ocs - min (g - min g ocs) ftfr) dco
      ≤ g - min g ocs - min (g - min g ocs) ftfr := min_le_left _ _
  rw [max_eq_left (by linarith)]
  ring

/-- C1: for every gross input ≥ 0 and nonnegative tier amounts, the waterfall
is a conservative partition: `funder_share + firm_share +
claims_processor_share = gross` exactly in rational arithmetic. -/
theorem dba_distribution_conserves_value (g ocs ftfr dco : ℚ)
    (hg : 0 ≤ g) (hocs : 0 ≤ ocs) (hftfr : 0 ≤ ftfr) (hdco : 0 ≤ dco) :
    (calculate_dba_distribution g ocs ftfr dco).funder_share
      + (calculate_dba_distribution g ocs ftfr dco).firm_share
      + (calculate_dba_distribution g ocs ftfr dco).claims_processor_share = g :=
  dba_shares_sum g ocs ftfr dco

/-- C1 witness: conservation at the documented scenario
`(100000, 20000, 10000, 5000)`. -/
theorem dba_distribution_conserves_value_witness :
    (0:ℚ) ≤ 100000 ∧
    (calculate_dba_distribution 100000 20000 10000 5000).funder_share
      + (calculate_dba_distribution 100000 20000 10000 5000).firm_share
      + (calculate_dba_distribution 100000 20000 10000 5000).claims_processor_share
      = 100000 :=
  ⟨by norm_num,
   dba_distribution_conserves_value 100000 20000 10000 5000
     (by norm_num) (by norm_num) (by norm_num) (by norm_num)⟩

/-- C2 counterexample: at the scenario `gross=100000, outstanding=20000,
first_tier=10000, overrun=5000` the implementation reports
`claims_processor_share = 9000` and `firm_share = 9000`, not the claimed
`6500` and `11500`: the overrun payment IS shared with the claims
processor. -/
theorem dba_tier4_scenario_refutes_claim :
    (calculate_dba_distribution 100000 20000 10000 5000).claims_processor_share = 9000 ∧
    (calculate_dba_distribution 100000 20000 10000 5000).firm_share = 9000 ∧
    ¬((calculate_dba_distribution 100000 20000 10000 5000).claims_processor_share = 6500 ∧
      (calculate_dba_distribution 100000 20000 10000 5000).firm_share = 11500) := by
  refine ⟨?_, ?_, ?_⟩ <;> simp [calculate_dba_distribution] <;> norm_num

/-- C2 amended: in tier 4 the claims processor receives half of the firm's
entire pot — the tier-3 overrun payment plus 20% of net proceeds — and the
reported firm share is the other half; at the documented scenario
`net_proceeds = 65000`, `funder_share = 82000`, and both
`claims_processor_share` and `firm_share` are `9000`. -/
theorem dba_tier4_split_includes_overrun :
    (∀ g ocs ftfr dco : ℚ,
      (calculate_dba_distribution g ocs ftfr dco).claims_processor_share
        = ((calculate_dba_distribution g ocs ftfr dco).distribution_costs_overrun
            + (calculate_dba_distribution g ocs ftfr dco).net_proceeds * 0.2) * 0.5 ∧
      (calculate_dba_distribution g ocs ftfr dco).firm_share
        = ((calculate_dba_distribution g ocs ftfr dco).distribution_costs_overrun
            + (calculate_dba_distribution g ocs ftfr dco).net_proceeds * 0.2)
          - (calculate_dba_distribution g ocs ftfr dco).claims_processor_share) ∧
    (calculate_dba_distribution 100000 20000 10000 5000).net_proceeds = 65000 ∧
    (calculate_dba_distribution 100000 20000 10000 5000).funder_share = 82000 ∧
    (calculate_dba_distribution 100000 20000 10000 5000).claims_processor_share = 9000 ∧
    (calculate_dba_distribution 100000 20000 10000 5000).firm_share = 9000 := by
  refine ⟨fun g ocs ftfr dco => ⟨?_, ?_⟩, ?_, ?_, ?_, ?_⟩ <;>
    simp [calculate_dba_distribution] <;> norm_num

/-- C3 counterexample: `gross_proceeds = -1` is negative, yet the call
succeeds and returns a breakdown — the code performs no input validation. -/
theorem distribute_negative_input_succeeds :
    (-1 : ℚ) < 0 ∧ (distribute (-1) 20000 10000 5000).isOk = true :=
  ⟨by norm_num, rfl⟩

/-- C3 amended: the distributor rejects no input at all — for every gross
input, negative included, it returns a full breakdown (never an error), and
the conservation identity still holds. -/
theorem distribute_never_errors (g ocs ftfr dco : ℚ) :
    ∃ r, distribute g ocs ftfr dco = Except.ok r ∧
      r.funder_share + r.firm_share + r.claims_processor_share = g :=
  ⟨calculate_dba_distribution g ocs ftfr dco, rfl, dba_shares_sum g ocs ftfr dco⟩

/-- C9: for every input with gross proceeds ≥ 0, the reported firm share and
claims-processor share are equal: whatever reaches the firm's pot is split
exactly in half. -/
theorem dba_firm_share_eq_claims_processor_share (g ocs ftfr dco : ℚ)
    (hg : 0 ≤ g) :
    (calculate_dba_distribution g ocs ftfr dco).firm_share
      = (calculate_dba_distribution g ocs ftfr dco).claims_processor_share := by
  simp only [calculate_dba_distribution]
  ring

/-- C9 witness: equality of the two shares at the documented scenario. -/
theorem dba_firm_share_eq_claims_processor_share_witness :
    (0:ℚ) ≤ 100000 ∧
    (calculate_dba_distribution 100000 20000 10000 5000).firm_share
      = (calculate_dba_distribution 100000 20000 10000 5000).claims_processor_share :=
  ⟨by norm_num, dba_firm_share_eq_claims_processor_share 100000 20000 10000 5000 (by norm_num)⟩

/-! ## FCA redress validator (`src/fca_redress_validator.py`)

Dates are modelled as calendar triples; `datetime` subtraction in days is the
standard Gregorian day-number difference. The source parses date strings by
trying `strptime` formats in order, swallowing `ValueError`. -/

/-- A calendar date as `datetime.strptime` produces it. -/
structure Date where
  year : ℕ
  month : ℕ
  day : ℕ
  deriving Repr, DecidableEq

def isLeapYear (y : ℕ) : Bool :=
  (y % 4 == 0 && y % 100 != 0) || y % 400 == 0

def daysInMonth (y m : ℕ) : ℕ :=
  if m = 2 then (if isLeapYear y then 29 else 28)
  else if m = 4 ∨ m = 6 ∨ m = 9 ∨ m = 11 then 30
  else 31

/-- Gregorian day number (days since 1970-01-01, the standard days-from-civil
computation); `datetime` subtraction `.days` between two midnight dates is the
difference of their day numbers. -/
def Date.toDays (dt : Date) : ℤ :=
  let y : ℤ := if dt.month ≤ 2 then (dt.year : ℤ) - 1 else (dt.year : ℤ)
  let m : ℤ := (dt.month : ℤ)
  let d : ℤ := (dt.day : ℤ)
  let era : ℤ := (if 0 ≤ y then y else y - 399) / 400
  let yoe : ℤ := y - era * 400
  let doy : ℤ := (153 * (m + (if 2 < m then -3 else 9)) + 2) / 5 + d - 1
  let doe : ℤ := yoe * 365 + yoe / 4 - yoe / 100 + doy
  era * 146097 + doe - 719468

/-- Split a character list at every occurrence of `sep` (the list-level
counterpart of splitting the date string at its separator). -/
def splitOnChar (sep : Char) : List Char → List Char → List (List Char)
  | [], acc => [acc.reverse]
  | c :: rest, acc =>
    if c = sep then acc.reverse :: splitOnChar sep rest []
    else splitOnChar sep rest (c :: acc)

/-- A nonempty all-digit field read as a number, as `strptime`'s numeric
directives read it. -/
def digitsToNat (cs : List Char) : Option ℕ :=
  if cs = [] then none
  else if cs.all fun c => c.isDigit then
    some (cs.foldl (fun n c => 10 * n + (c.toNat - 48)) 0)
  else none

/-- One `strptime` attempt: three numeric fields separated by `sep`, year
first (`%Y-%m-%d`) or day first (`%d/%m/%Y`, `%d-%m-%Y`), validated against
the calendar. -/
def parseDateParts (yearFirst : Bool) (sep : Char) (s : String) : Option Date :=
  match (splitOnChar sep s.toList []).map digitsToNat with
  | [some a, some b, some c] =>
    let y := if yearFirst then a else c
    let m := b
    let d := if yearFirst then c else a
    if 1 ≤ m ∧ m ≤ 12 ∧ 1 ≤ d ∧ d ≤ daysInMonth y m then some ⟨y, m, d⟩ else none
  | _ => none

/-- The validator's repeated parsing loop: try formats `%Y-%m-%d`,
`%d/%m/%Y`, `%d-%m-%Y` in that order; the first success wins, and if all
fail the caller's exception handling decides. -/
def parseDateMulti (s : String) : Option Date :=
  (parseDateParts true '-' s).orElse fun _ =>
    (parseDateParts false '/' s).orElse fun _ => parseDateParts false '-' s

/-- `FCASchemeRules` (`src/fca_redress_validator.py`): the scheme
configuration with the source's defaults. Floats are exact rationals; the
optional cap is `none` for the source's `None`. -/
structure FCASchemeRules where
  agreement_start_date_min : String := "2007-04-06"
  agreement_start_date_max : String := "2021-01-28"
  commission_disclosure_threshold : ℚ := 50
  plevin_threshold : ℚ := 50
  limitation_period_years : ℚ := 6
  knowledge_period_years : ℚ := 3
  statutory_interest_rate : ℚ := 8
  eligible_product_types : List String := ["PCP", "HP", "CS", "PCH"]
  max_redress_amount : Option ℚ := none
  deriving Repr, DecidableEq

/-- The claim-record fields `check_eligibility` / `calculate_redress` read
from their input dict; a `dict.get` default is folded into the field's
default value. -/
structure ClaimData where
  agreement_date : String := ""
  submission_date : String := ""
  product_type : String := ""
  commission_pct_of_cost : ℚ := 0
  loan_amount : ℚ := 0
  commission_amount : ℚ := 0
  total_cost_of_credit : ℚ := 0
  disclosure_adequate : String := "N"
  consequential_losses : ℚ := 0
  claim_amount : ℚ := 0
  deriving Repr, DecidableEq

inductive EligibilityStatus where
  | eligible
  | ineligible
  | requires_review
  deriving Repr, DecidableEq

/-- `_check_date_eligibility`, reduced to its pass/fail flag (the appended
reason strings never alter the flag): missing or unparseable agreement date
fails; the rule bounds are parsed with the single format `%Y-%m-%d`, and a
failure there raises and is caught by the outer handler, failing the check;
otherwise pass iff `min_date ≤ agreement_date ≤ max_date`. -/
def check_date_eligibility (agreement_date : String) (rules : FCASchemeRules) : Bool :=
  if agreement_date = "" then false
  else
    match parseDateMulti agreement_date with
    | none => false
    | some agr_date =>
      match parseDateParts true '-' rules.agreement_start_date_min,
            parseDateParts true '-' rules.agreement_start_date_max with
      | some min_date, some max_date =>
        if agr_date.toDays < min_date.toDays then false
        else if max_date.toDays < agr_date.toDays then false
        else true
      | some _, none => false
      | none, _ => false

/-- The synonym table of `_check_product_type`. -/
def product_mappings : List (String × String) :=
  [("PCP", "PCP"), ("PERSONAL CONTRACT PURCHASE", "PCP"),
   ("HP", "HP"), ("HIRE PURCHASE", "HP"),
   ("CS", "CS"), ("CONDITIONAL SALE", "CS"),
   ("PCH", "PCH"), ("PERSONAL CONTRACT HIRE", "PCH")]

/-- `_check_product_type`, reduced to its pass/fail flag: an empty product
type passes by default with a warning; otherwise normalize
(uppercase + strip), map synonyms, and test membership in the eligible
types. -/
def check_product_type (product_type : String) (rules : FCASchemeRules) : Bool :=
  if product_type = "" then true
  else
    let p := product_type.toUpper.trim
    let normalized := (product_mappings.lookup p).getD p
    rules.eligible_product_types.contains normalized

/-- The messages `_check_commission_threshold` appends (text abstracted to
its identity). -/
inductive CommissionMsg where
  | notAvailable
  | exceedsThreshold
  | notDisclosed
  | belowThreshold
  | otherGrounds
  deriving Repr, DecidableEq

structure CommissionCheck where
  pass : Bool
  reasons : List CommissionMsg
  warnings : List CommissionMsg
  deriving Repr, DecidableEq

/-- `_check_commission_threshold`: a commission percentage of `0` (the
"not available" sentinel) fails with a warning and is never treated as
passing; otherwise pass iff the percentage is at least the Plevin
threshold. -/
def check_commission_threshold (commission_pct : ℚ) (disclosure_adequate : String)
    (rules : FCASchemeRules) : CommissionCheck :=
  if commission_pct = 0 then
    { pass := false, reasons := [], warnings := [.notAvailable] }
  else if rules.plevin_threshold ≤ commission_pct then
    { pass := true,
      reasons := .exceedsThreshold ::
        (if disclosure_adequate ≠ "Y" then [.notDisclosed] else []),
      warnings := [] }
  else
    { pass := false, reasons := [.belowThreshold], warnings := [.otherGrounds] }

/-- The messages `_check_limitation_period` appends (text abstracted to its
identity). -/
inductive LimitationMsg where
  | cannotVerifyMissingDate
  | overLimitWarning
  | overLimitReason
  | withinLimit
  | couldNotVerify
  deriving Repr, DecidableEq

structure LimitationCheck where
  pass : Bool
  reasons : List LimitationMsg
  warnings : List LimitationMsg
  deriving Repr, DecidableEq

/-- `_check_limitation_period`: a missing agreement date passes trivially
with a warning; an unparseable agreement or submission date leaves the loop
variable unbound, the resulting error is caught, and the check passes with a
"could not verify" warning; otherwise elapsed years are
`(submission_or_now - agreement).days / 365.25`, and exceeding the
limitation period only appends a warning and a concern reason — every branch
returns pass. `now` is the day number `datetime.now()` would give. -/
def check_limitation_period (agreement_date submission_date : String) (now : ℤ)
    (rules : FCASchemeRules) : LimitationCheck :=
  if agreement_date = "" then
    { pass := true, reasons := [], warnings := [.cannotVerifyMissingDate] }
  else
    match parseDateMulti agreement_date with
    | none => { pass := true, reasons := [], warnings := [.couldNotVerify] }
    | some agr_date =>
      match (if submission_date = "" then some now
             else (parseDateMulti submission_date).map Date.toDays) with
      | none => { pass := true, reasons := [], warnings := [.couldNotVerify] }
      | some sub_days =>
        let years_elapsed : ℚ := ((sub_days - agr_date.toDays : ℤ) : ℚ) / 365.25
        if rules.limitation_period_years < years_elapsed then
          { pass := true, reasons := [.overLimitReason], warnings := [.overLimitWarning] }
        else
          { pass := true, reasons := [.withinLimit], warnings := [] }

/-- The result fields of `check_eligibility` that the verdict claims are
about (the aggregated reason/warning strings are carried by the individual
checks above). -/
structure ClaimEligibility where
  status : EligibilityStatus
  eligible : Bool
  date_checks_passed : Bool
  product_type_eligible : Bool
  commission_threshold_met : Bool
  limitation_period_valid : Bool
  recommendation : String
  deriving Repr, DecidableEq

/-- The commission-percentage derivation at the top of `check_eligibility`:
the provided `commission_pct_of_cost` (0 when absent), re-derived as
`commission_amount / total_cost_of_credit * 100` only when it is 0, the
commission amount is positive and the total cost of credit is positive — the
`total_cost_of_credit > 0` guard keeps the division from ever being taken
with a zero denominator. -/
def effective_commission_pct (claim : ClaimData) : ℚ :=
  if claim.commission_pct_of_cost = 0 ∧ 0 < claim.commission_amount then
    if 0 < claim.total_cost_of_credit then
      claim.commission_amount / claim.total_cost_of_credit * 100
    else claim.commission_pct_of_cost
  else claim.commission_pct_of_cost

/-- `check_eligibility` (`src/fca_redress_validator.py`, lines 142–223): run
the four sub-checks, then compose the verdict: all critical checks and the
commission check → eligible; critical checks but not commission →
requires_review; otherwise ineligible. -/
def check_eligibility (claim : ClaimData) (rules : FCASchemeRules) (now : ℤ) :
    ClaimEligibility :=
  let commission_pct := effective_commission_pct claim
  let date_checks_passed := check_date_eligibility claim.agreement_date rules
  let product_type_eligible := check_product_type claim.product_type.toUpper rules
  let commission_threshold_met :=
    (check_commission_threshold commission_pct claim.disclosure_adequate rules).pass
  let limitation_period_valid :=
    (check_limitation_period claim.agreement_date claim.submission_date now rules).pass
  let critical := date_checks_passed && product_type_eligible && limitation_period_valid
  if critical && commission_threshold_met then
    { status := .eligible, eligible := true, date_checks_passed,
      product_type_eligible, commission_threshold_met, limitation_period_valid,
      recommendation := "APPROVE - Claim meets FCA eligibility criteria" }
  else if critical && !commission_threshold_met then
    { status := .requires_review, eligible := false, date_checks_passed,
      product_type_eligible, commission_threshold_met, limitation_period_valid,
      recommendation := "REVIEW - Commission below Plevin threshold but may have other grounds" }
  else
    { status := .ineligible, eligible := false, date_checks_passed,
      product_type_eligible, commission_threshold_met, limitation_period_valid,
      recommendation := "REJECT - Claim does not meet FCA eligibility criteria" }

/-- The fields of `RedressCalculation` the arithmetic claims are about. -/
structure RedressCalculation where
  base_redress_amount : ℚ
  statutory_interest : ℚ
  total_redress : ℚ
  distress_inconvenience : ℚ
  consequential_losses : ℚ
  deriving Repr, DecidableEq

/-- `calculate_redress` (`src/fca_redress_validator.py`, lines 363–431):
base = 50% of commission; statutory interest accrues on the base at the
configured rate over `(now - agreement_date).days / 365.25` years when the
agreement date parses (0 otherwise, the error being swallowed); distress and
inconvenience is the fixed 150; consequential losses pass through; the total
is the sum, clamped to `max_redress_amount` only when that cap is truthy
(not `None` and not `0`) and the sum exceeds it. -/
def calculate_redress (claim : ClaimData) (rules : FCASchemeRules) (now : ℤ) :
    RedressCalculation :=
  let basic_redress := claim.commission_amount * 0.5
  let statutory_interest : ℚ :=
    if claim.agreement_date = "" then 0
    else
      match parseDateMulti claim.agreement_date with
      | none => 0
      | some agr_date =>
        let years_elapsed : ℚ := ((now - agr_date.toDays : ℤ) : ℚ) / 365.25
        basic_redress * (rules.statutory_interest_rate / 100) * years_elapsed
  let distress_inconvenience : ℚ := 150
  let consequential_losses := claim.consequential_losses
  let total0 := basic_redress + statutory_interest + distress_inconvenience
    + consequential_losses
  let total_redress :=
    match rules.max_redress_amount with
    | some m => if m ≠ 0 ∧ m < total0 then m else total0
    | none => total0
  { base_redress_amount := basic_redress, statutory_interest, total_redress,
    distress_inconvenience, consequential_losses }

/-- The assessment branch `_assess_claim_amount` selects (its formatted text
abstracted to the branch's identity). -/
inductive ClaimAmountAssessment where
  | aligns
  | claimedHigher
  | claimedLower
  deriving Repr, DecidableEq

/-- `_assess_claim_amount` (`src/fca_redress_validator.py`, lines 479–486):
`|variance_pct| < 10` → aligns; `variance_pct > 10` → claimed higher;
otherwise → claimed lower. -/
def assess_claim_amount (variance_pct : ℚ) : ClaimAmountAssessment :=
  if |variance_pct| < 10 then .aligns
  else if 10 < variance_pct then .claimedHigher
  else .claimedLower

/-! ## Verdict composition (spec side)

The spec's verdict table, stated from its words, to be compared with
`check_eligibility`. -/

/-- Spec: with `critical = date_ok AND product_ok AND limitation_ok`,
`critical AND commission_ok` is eligible, `critical AND NOT commission_ok`
requires review, anything else is ineligible. -/
def verdict_spec (critical commission_ok : Bool) : EligibilityStatus :=
  if critical && commission_ok then .eligible
  else if critical then .requires_review
  else .ineligible

/-- Spec: the fixed recommendation string for each verdict. -/
def recommendation_spec : EligibilityStatus → String
  | .eligible => "APPROVE - Claim meets FCA eligibility criteria"
  | .requires_review => "REVIEW - Commission below Plevin threshold but may have other grounds"
  | .ineligible => "REJECT - Claim does not meet FCA eligibility criteria"

/-- Sum of the four reported redress components. -/
def redress_components_sum (r : RedressCalculation) : ℚ :=
  r.base_redress_amount + r.statutory_interest + r.distress_inconvenience
    + r.consequential_losses

/-- The same scheme rules with the redress cap removed. -/
def uncapped (rules : FCASchemeRules) : FCASchemeRules :=
  { rules with max_redress_amount := none }

/-- C4: for every claim record, the verdict is exactly the spec's table over
the four sub-check flags the result itself reports — eligible when the
critical checks and the commission check pass, requires_review (never
ineligible) when only the commission check fails, ineligible otherwise — and
the recommendation is the fixed string for that verdict. -/
theorem check_eligibility_verdict_composition (claim : ClaimData)
    (rules : FCASchemeRules) (now : ℤ) :
    (check_eligibility claim rules now).status
      = verdict_spec
          ((check_eligibility claim rules now).date_checks_passed
            && (check_eligibility claim rules now).product_type_eligible
            && (check_eligibility claim rules now).limitation_period_valid)
          (check_eligibility claim rules now).commission_threshold_met
    ∧ (check_eligibility claim rules now).recommendation
        = recommendation_spec (check_eligibility claim rules now).status := by
  simp only [check_eligibility]
  cases check_date_eligibility claim.agreement_date rules <;>
    cases check_product_type claim.product_type.toUpper rules <;>
    cases (check_commission_threshold (effective_commission_pct claim)
      claim.disclosure_adequate rules).pass <;>
    cases (check_limitation_period claim.agreement_date claim.submission_date
      now rules).pass <;>
    simp [verdict_spec, recommendation_spec]

/-- C5: when the Plevin threshold is positive (it is 50 by default), the
commission flag of `check_eligibility` passes exactly when the effective
commission percentage reaches the threshold; and when the percentage is not
provided and the total cost of credit is zero, the percentage is never
derived (it stays 0) and the check fails with the "not available" warning
rather than passing. -/
theorem commission_check_pass_iff (claim : ClaimData) (rules : FCASchemeRules)
    (now : ℤ) (hthr : 0 < rules.plevin_threshold) :
    ((check_eligibility claim rules now).commission_threshold_met = true
      ↔ rules.plevin_threshold ≤ effective_commission_pct claim)
    ∧ (claim.commission_pct_of_cost = 0 → claim.total_cost_of_credit = 0 →
        effective_commission_pct claim = 0
        ∧ check_commission_threshold (effective_commission_pct claim)
            claim.disclosure_adequate rules
          = { pass := false, reasons := [], warnings := [.notAvailable] }) := by
  have hflag : (check_eligibility claim rules now).commission_threshold_met
      = (check_commission_threshold (effective_commission_pct claim)
          claim.disclosure_adequate rules).pass := by
    simp only [check_eligibility]
    cases check_date_eligibility claim.agreement_date rules <;>
      cases check_product_type claim.product_type.toUpper rules <;>
      cases (check_commission_threshold (effective_commission_pct claim)
        claim.disclosure_adequate rules).pass <;>
      cases (check_limitation_period claim.agreement_date claim.submission_date
        now rules).pass <;>
      simp
  have hpct0 : claim.commission_pct_of_cost = 0 → claim.total_cost_of_credit = 0 →
      effective_commission_pct claim = 0 := by
    intro h1 h2
    unfold effective_commission_pct
    rw [h1, h2]
    simp
  refine ⟨?_, fun h1 h2 => ⟨hpct0 h1 h2, ?_⟩⟩
  · rw [hflag]
    unfold check_commission_threshold
    split
    · rename_i h0
      simp only [h0]
      constructor
      · intro h
        exact absurd h (by simp)
      · intro h
        exact absurd (lt_of_lt_of_le hthr h) (lt_irrefl 0)
    · split
      · rename_i hge
        simpa using hge
      · rename_i hlt
        simpa using hlt
  · rw [hpct0 h1 h2]
    unfold check_commission_threshold
    simp

/-- C5 witness: at the default rules (threshold 50) and a claim with
commission amount 3000 but total cost of credit 0 and no provided
percentage, the check fails with the warning, and the pass-iff holds. -/
theorem commission_check_pass_iff_witness :
    (0:ℚ) < (({} : FCASchemeRules)).plevin_threshold ∧
    ((((check_eligibility { commission_amount := 3000 } {} 0).commission_threshold_met = true
      ↔ ({} : FCASchemeRules).plevin_threshold
          ≤ effective_commission_pct { commission_amount := 3000 })
    ∧ (({ commission_amount := 3000 } : ClaimData).commission_pct_of_cost = 0 →
        ({ commission_amount := 3000 } : ClaimData).total_cost_of_credit = 0 →
        effective_commission_pct { commission_amount := 3000 } = 0
        ∧ check_commission_threshold
            (effective_commission_pct { commission_amount := 3000 })
            ({ commission_amount := 3000 } : ClaimData).disclosure_adequate {}
          = { pass := false, reasons := [], warnings := [.notAvailable] }))) :=
  ⟨by norm_num, commission_check_pass_iff { commission_amount := 3000 } {} 0 (by norm_num)⟩

/-- C6: the limitation-period check passes for every input — a missing
agreement date passes with a warning, an unparseable date passes with a
warning, and elapsed years beyond the limitation period only append a
warning and a concern reason without failing. -/
theorem limitation_check_always_passes (ad sd : String) (now : ℤ)
    (rules : FCASchemeRules) :
    (check_limitation_period ad sd now rules).pass = true
    ∧ (ad = "" → check_limitation_period ad sd now rules
        = { pass := true, reasons := [], warnings := [.cannotVerifyMissingDate] })
    ∧ (parseDateMulti ad = none → ad ≠ "" → check_limitation_period ad sd now rules
        = { pass := true, reasons := [], warnings := [.couldNotVerify] })
    ∧ (∀ d, parseDateMulti ad = some d → ad ≠ "" → sd = "" →
        rules.limitation_period_years < ((now - d.toDays : ℤ) : ℚ) / 365.25 →
        check_limitation_period ad sd now rules
          = { pass := true, reasons := [.overLimitReason],
              warnings := [.overLimitWarning] }) := by
  refine ⟨?_, ?_, ?_, ?_⟩
  · unfold check_limitation_period
    split
    · rfl
    · split
      · rfl
      · split
        · rfl
        · dsimp only
          split <;> rfl
  · intro h
    unfold check_limitation_period
    rw [if_pos h]
  · intro hparse hne
    unfold check_limitation_period
    rw [if_neg hne, hparse]
  · intro d hparse hne hsd hyears
    unfold check_limitation_period
    rw [if_neg hne, hparse, if_pos hsd]
    dsimp only
    rw [if_pos hyears]

/-- C6 witness: the three interesting branches at concrete inputs — missing
date, unparseable date, and a 2007 agreement evaluated in 2026 (over the
6-year period). -/
theorem limitation_check_always_passes_witness :
    (check_limitation_period "2007-06-15" "" 20739 {}).pass = true
    ∧ check_limitation_period "" "" 0 {}
        = { pass := true, reasons := [], warnings := [.cannotVerifyMissingDate] }
    ∧ check_limitation_period "garbage" "" 0 {}
        = { pass := true, reasons := [], warnings := [.couldNotVerify] }
    ∧ check_limitation_period "2007-06-15" "" 20739 {}
        = { pass := true, reasons := [.overLimitReason],
            warnings := [.overLimitWarning] } :=
  ⟨(limitation_check_always_passes "2007-06-15" "" 20739 {}).1,
   (limitation_check_always_passes "" "" 0 {}).2.1 rfl,
   (limitation_check_always_passes "garbage" "" 0 {}).2.2.1 (by decide) (by decide),
   (limitation_check_always_passes "2007-06-15" "" 20739 {}).2.2.2
     ⟨2007, 6, 15⟩ (by decide) (by decide) rfl (by norm_num [Date.toDays])⟩

/-- C7: the redress total is the sum of base (half the commission), statutory
interest, the fixed 150 distress award and consequential losses; a truthy cap
smaller than that sum replaces only the reported total, while every reported
component is identical to the uncapped computation. -/
theorem calculate_redress_total_and_cap (claim : ClaimData)
    (rules : FCASchemeRules) (now : ℤ) :
    (calculate_redress claim (uncapped rules) now).total_redress
      = redress_components_sum (calculate_redress claim (uncapped rules) now)
    ∧ (calculate_redress claim (uncapped rules) now).base_redress_amount
        = claim.commission_amount * 0.5
    ∧ (calculate_redress claim (uncapped rules) now).distress_inconvenience = 150
    ∧ (calculate_redress claim rules now).base_redress_amount
        = (calculate_redress claim (uncapped rules) now).base_redress_amount
    ∧ (calculate_redress claim rules now).statutory_interest
        = (calculate_redress claim (uncapped rules) now).statutory_interest
    ∧ (calculate_redress claim rules now).distress_inconvenience
        = (calculate_redress claim (uncapped rules) now).distress_inconvenience
    ∧ (calculate_redress claim rules now).consequential_losses
        = (calculate_redress claim (uncapped rules) now).consequential_losses
    ∧ (∀ m, rules.max_redress_amount = some m → m ≠ 0 →
        m < redress_components_sum (calculate_redress claim (uncapped rules) now) →
        (calculate_redress claim rules now).total_redress = m) := by
  refine ⟨?_, ?_, ?_, ?_, ?_, ?_, ?_, ?_⟩ <;>
    simp only [calculate_redress, uncapped, redress_components_sum]
  all_goals intro m hm hne hlt
  all_goals rw [hm]
  all_goals exact if_pos ⟨hne, hlt⟩

/-- C10: a cap configured as exactly 0 behaves as "no cap": the reported
total is the full component sum, identical to the total with no cap at all,
because the cap is applied only when truthy. -/
theorem redress_zero_cap_behaves_as_no_cap (claim : ClaimData)
    (rules : FCASchemeRules) (now : ℤ) :
    (calculate_redress claim { rules with max_redress_amount := some 0 } now).total_redress
      = redress_components_sum
          (calculate_redress claim { rules with max_redress_amount := some 0 } now)
    ∧ (calculate_redress claim { rules with max_redress_amount := some 0 } now).total_redress
      = (calculate_redress claim (uncapped rules) now).total_redress := by
  constructor <;>
    simp only [calculate_redress, uncapped, redress_components_sum] <;>
    simp

/-- C8: the claimed-amount assessment uses a strict 10% boundary: "aligns"
exactly when `|variance_pct| < 10`, "claimed higher" exactly when
`variance_pct > 10`, "claimed lower" otherwise; at exactly 10.0 and -10.0
the result is "claimed lower", not "aligns". -/
theorem assess_claim_amount_strict_boundary :
    (∀ v : ℚ,
      (assess_claim_amount v = .aligns ↔ |v| < 10)
      ∧ (assess_claim_amount v = .claimedHigher ↔ 10 < v)
      ∧ (assess_claim_amount v = .claimedLower ↔ ¬|v| < 10 ∧ ¬10 < v))
    ∧ assess_claim_amount 10 = .claimedLower
    ∧ assess_claim_amount (-10) = .claimedLower := by
  refine ⟨fun v => ?_, ?_, ?_⟩
  · unfold assess_claim_amount
    split_ifs with h1 h2
    · have hv : ¬(10 < v) := not_lt.mpr (le_of_lt (abs_lt.mp h1).2)
      simp [h1, hv]
    · simp [h1, h2]
    · simp [h1, h2]
  · norm_num [assess_claim_amount]
  · norm_num [assess_claim_amount]

end PCPClaims
